import Mathlib

/-!
Shallow embedding of the gateway telemetry correlation and classification
engine (agent-live-graph/server.js): protocol classifiers, noise filter,
async correlation table, transaction buffer, flush scheduler and assembler.
JavaScript strings are Lean `String`s; JSON values are modelled by the
inductive `Json`; an opaque request/response body is a `RawBody`, which
carries the raw string together with the outcome of `JSON.parse` on it
(the constructor `json s j` records that the string `s` parses to `j`,
`malformed s` that parsing throws, `absent` the empty/missing body).
Machine timers are modelled by their deadline (`Option Nat`), broadcast
output by a list of `OutMsg` values returned from each operation.
-/

/-- A JSON value. `strj s j` is a string value whose text `s` itself
parses as the JSON value `j` (used for nested encoded payloads);
`str s` is a string value whose text does not parse as JSON. -/
inductive Json where
  | null
  | bool (b : Bool)
  | num (n : Int)
  | str (s : String)
  | strj (s : String) (j : Json)
  | arr (elems : List Json)
  | obj (fields : List (String × Json))

/-- An opaque body string together with its `JSON.parse` behaviour. -/
inductive RawBody where
  | absent
  | malformed (s : String)
  | json (s : String) (j : Json)

/-- The raw string of a body (`absent` is the empty string). -/
def RawBody.str : RawBody → String
  | .absent => ""
  | .malformed s => s
  | .json s _ => s

/-- Embeds `tryJSON`: `JSON.parse` in a try/catch, `null` on failure. -/
def tryJSON : RawBody → Option Json
  | .json _ j => some j
  | _ => none

/-- JavaScript truthiness of a JSON value. -/
def jtruthy : Json → Bool
  | .null => false
  | .bool b => b
  | .num n => n != 0
  | .str s => s != ""
  | .strj s _ => s != ""
  | .arr _ => true
  | .obj _ => true

/-- Property access `j[k]` on a parsed JSON value: defined on objects only. -/
def jget : Json → String → Option Json
  | .obj fs, k => (fs.find? (fun kv => kv.1 == k)).map (fun kv => kv.2)
  | _, _ => none

/-- Truthiness of an optional field (absent is `undefined`, falsy). -/
def jOptTruthy : Option Json → Bool
  | some j => jtruthy j
  | none => false

/-- Reads a field used as a string (`x || ''` in the source): the text of a
string value, `""` otherwise. -/
def jstrD : Option Json → String
  | some (.str s) => s
  | some (.strj s _) => s
  | _ => ""

/-- Reads a field used as an array (`x || []` in the source). -/
def jarr : Option Json → List Json
  | some (.arr xs) => xs
  | _ => []

/-- `s || null`: a string as an optional value, `none` when empty. -/
def strOpt (s : String) : Option String :=
  if s = "" then none else some s

/-- `a || b` on two body strings: the first when non-empty. -/
def orB (a b : RawBody) : RawBody :=
  if a.str = "" then b else a

/-- `a || b` on two strings. -/
def orS (a b : String) : String :=
  if a = "" then b else a

/-- Embeds `trunc(s, n)`. -/
def trunc (s : String) (n : Nat) : String :=
  if s.data = [] then ""
  else if n < s.data.length then String.mk (s.data.take n) ++ "..." else s

/-- `s.slice(0, n)` on a string. -/
def sTake (s : String) (n : Nat) : String := String.mk (s.data.take n)

/-- `s.startsWith(pre)`. -/
def sStarts (s pre : String) : Bool := pre.data.isPrefixOf s.data

/-- Substring containment on character lists. -/
def hasInfix (sub : List Char) : List Char → Bool
  | [] => sub.isEmpty
  | c :: cs => sub.isPrefixOf (c :: cs) || hasInfix sub cs

/-- `s.includes(sub)`. -/
def sIncludes (s sub : String) : Bool := hasInfix sub.data s.data

/-- ASCII uppercase of one character. -/
def charUpper (c : Char) : Char :=
  if 97 ≤ c.toNat ∧ c.toNat ≤ 122 then Char.ofNat (c.toNat - 32) else c

/-- `s.toUpperCase()` (ASCII). -/
def sUpper (s : String) : String := String.mk (s.data.map charUpper)

/-- Embeds `st(status)`: the performance class of an outcome code. -/
def st (status : Nat) : String :=
  if 200 ≤ status ∧ status < 300 then "ok"
  else if 400 ≤ status ∧ status < 500 then "warn"
  else "err"

/-- Result of `parseMCP` on a request body. -/
structure MCPReq where
  method : String
  toolName : String
  toolArgs : Json

/-- Embeds `parseMCP(body)`. -/
def parseMCP (b : RawBody) : MCPReq :=
  match tryJSON b with
  | none => ⟨"", "", Json.obj []⟩
  | some p =>
    if !jtruthy p then ⟨"", "", Json.obj []⟩
    else
      let params := jget p "params"
      let nm := match params with
        | some pa => if jtruthy pa then jstrD (jget pa "name") else ""
        | none => ""
      let args : Json := match params with
        | some pa =>
          if jtruthy pa then
            match jget pa "arguments" with
            | some a => if jtruthy a then a else Json.obj []
            | none => Json.obj []
          else Json.obj []
        | none => Json.obj []
      ⟨jstrD (jget p "method"), nm, args⟩

/-- Result of `parseMCPRes` on a response body. -/
inductive MCPRes where
  | tools (names : List String)
  | count (n : Nat)
  | text (s : String)

/-- Embeds `parseMCPRes(body)`. -/
def parseMCPRes (b : RawBody) : Option MCPRes :=
  match tryJSON b with
  | none => none
  | some p =>
    if !jtruthy p then none
    else
      match jget p "result" with
      | none => none
      | some r =>
        if !jtruthy r then none
        else
          match jget r "tools" with
          | some (.arr ts) => some (.tools (ts.map (fun t => jstrD (jget t "name"))))
          | _ =>
            match jget r "content" with
            | some c =>
              if jtruthy c then
                match (jarr (some c)).find? (fun e => jstrD (jget e "type") == "text") with
                | some tc =>
                  match jget tc "text" with
                  | some (.strj _ (.arr xs)) => some (.count xs.length)
                  | some (.strj s _) => some (.text (trunc s 80))
                  | some (.str s) => some (.text (trunc s 80))
                  | _ => some (.text "")
                | none => none
              else none
            | none => none

/-- Result of `parseLLMReq` on a request body: `nMsgs` is `none` when the
body did not parse (the field is `undefined` in the source). -/
structure LLMReq where
  model : String
  hasTools : Bool
  nTools : Nat
  nMsgs : Option Nat

/-- Embeds `parseLLMReq(body)`. -/
def parseLLMReq (b : RawBody) : LLMReq :=
  match tryJSON b with
  | none => ⟨"", false, 0, none⟩
  | some p =>
    if !jtruthy p then ⟨"", false, 0, none⟩
    else
      let nT := match jget p "tools" with
        | some (.arr xs) => xs.length
        | _ => 0
      let nM := match jget p "messages" with
        | some (.arr xs) => xs.length
        | _ => 0
      ⟨jstrD (jget p "model"), nT != 0, nT, some nM⟩

/-- Result of `parseLLMRes` on a response body. -/
structure LLMRes where
  hasToolCalls : Bool
  toolCalls : List String
  content : String
  tokens : Int

/-- Embeds `parseLLMRes(body)`. -/
def parseLLMRes (b : RawBody) : LLMRes :=
  match tryJSON b with
  | none => ⟨false, [], "", 0⟩
  | some p =>
    if !jtruthy p then ⟨false, [], "", 0⟩
    else
      match jget p "choices" with
      | some (.arr (c :: _)) =>
        if !jtruthy c then ⟨false, [], "", 0⟩
        else
          let msg : Json := match jget c "message" with
            | some m => if jtruthy m then m else Json.obj []
            | none => Json.obj []
          let tcs := jget msg "tool_calls"
          let has := match tcs with
            | some (.arr xs) => xs.length != 0
            | _ => false
          let names := (jarr tcs).map (fun tc =>
            match jget tc "function" with
            | some f => if jtruthy f then jstrD (jget f "name") else "?"
            | none => "?")
          let toks : Int := match (jget p "usage").bind (fun u => jget u "total_tokens") with
            | some (.num n) => n
            | _ => 0
          ⟨has, names, sTake (jstrD (jget msg "content")) 120, toks⟩
      | _ => ⟨false, [], "", 0⟩

/-- A string-typed field (`x && typeof x === 'string'`): some when the field
holds a non-empty string. -/
def jstrField (p : Json) (k : String) : Option String :=
  match jget p k with
  | some (.str s) => if s = "" then none else some s
  | some (.strj s _) => if s = "" then none else some s
  | _ => none

/-- The truthy `params.message.parts` chain of an A2A request body. -/
def partsOf (p : Json) : Option Json :=
  (jget p "params").bind (fun pa =>
    if jtruthy pa then
      (jget pa "message").bind (fun m =>
        if jtruthy m then
          (jget m "parts").bind (fun ps => if jtruthy ps then some ps else none)
        else none)
    else none)

/-- `parts.find(part => part.text)` followed by `.text`. -/
def firstTextOf (ps : List Json) : Option String :=
  (ps.find? (fun part => jOptTruthy (jget part "text"))).map
    (fun tp => jstrD (jget tp "text"))

/-- Embeds `parseUserRequest(body)`. -/
def parseUserRequest (b : RawBody) : String :=
  match tryJSON b with
  | none => ""
  | some p =>
    if !jtruthy p then ""
    else
      let fromParts : Option String :=
        match partsOf p with
        | some ps => firstTextOf (jarr (some ps))
        | none => none
      match fromParts with
      | some t => t
      | none =>
        match jstrField p "message" with
        | some s => s
        | none =>
          match jstrField p "text" with
          | some s => s
          | none => ""

/-- Embeds `parseAgentResponse(body)`. -/
def parseAgentResponse (b : RawBody) : String :=
  match tryJSON b with
  | none => ""
  | some p =>
    if !jtruthy p then ""
    else
      let fromResult : Option String :=
        match jget p "result" with
        | some r =>
          if jtruthy r then
            (if jOptTruthy (jget r "parts") then firstTextOf (jarr (jget r "parts")) else none) <|>
            (if jOptTruthy (jget r "artifacts") then
              (jarr (jget r "artifacts")).findSome? (fun art =>
                (jarr (jget art "parts")).findSome? (fun part =>
                  if jOptTruthy (jget part "text") then some (jstrD (jget part "text")) else none))
            else none) <|>
            (match (jget r "status").bind (fun stS =>
                if jtruthy stS then
                  (jget stS "message").bind (fun m =>
                    if jtruthy m then
                      (jget m "parts").bind (fun ps => if jtruthy ps then some ps else none)
                    else none)
                else none) with
             | some ps => firstTextOf (jarr (some ps))
             | none => none) <|>
            (match (jget r "message").bind (fun m =>
                if jtruthy m then
                  (jget m "parts").bind (fun ps => if jtruthy ps then some ps else none)
                else none) with
             | some ps => firstTextOf (jarr (some ps))
             | none => none)
          else none
        | none => none
      match fromResult with
      | some t => t
      | none =>
        match jstrField p "message" with
        | some s => s
        | none =>
          match jstrField p "text" with
          | some s => s
          | none => ""

/-- A tool invocation extracted from an MCP request. -/
structure ToolCall where
  name : String
  args : Json

/-- The message payload attached to a transition step. -/
structure Message where
  lane : String
  text : String
  rawDetail : Option String
  toolList : Option (List String)
  toolCall : Option ToolCall

/-- A policy-outcome annotation. -/
structure Policy where
  name : String
  passed : Bool

/-- A performance badge. -/
structure Badge where
  type : String
  text : String

/-- A visualization step: a boundary (divider) or a transition (arrow). -/
inductive Step where
  | divider (label : String)
  | arrow (from_ to_ label : String) (message : Option Message)
      (policies : Option (List Policy)) (plan : Option String) (badge : Option Badge)

/-- Whether a step is a transition touching the participant `p`. -/
def stepTouches (p : String) : Step → Bool
  | .arrow f t _ _ _ _ _ => f == p || t == p
  | _ => false

/-- The policy annotations of an (optional) step. -/
def stepPolicies : Option Step → Option (List Policy)
  | some (.arrow _ _ _ _ pols _ _) => pols
  | _ => none

/-- The message text of an (optional) step. -/
def stepText : Option Step → Option String
  | some (.arrow _ _ _ (some m) _ _ _) => some m.text
  | _ => none

/-- The four logged bodies of a telemetry record. -/
structure LogBodies where
  entrypointRequest : RawBody
  endpointRequest : RawBody
  endpointResponse : RawBody
  entrypointResponse : RawBody

/-- A log with all four bodies absent. -/
def noLog : LogBodies := ⟨.absent, .absent, .absent, .absent⟩

/-- A normalized gateway telemetry record. Missing string fields are `""`,
missing numeric fields are `0` (the source applies `|| ''` / `|| 0`);
`jvm` and `osp` flag the monitoring records (`evt.jvm`, `evt.os || evt.process`);
`messagePayload` is `evt.message.payload` for A2A message events. -/
structure Evt where
  jvm : Bool
  osp : Bool
  uri : String
  apiName : String
  httpMethod : String
  status : Nat
  gatewayLatencyMs : Nat
  gatewayResponseTimeMs : Nat
  endpointResponseTimeMs : Nat
  timestamp : Nat
  requestId : Option Nat
  log : LogBodies
  connectorId : String
  operation : String
  messagePayload : RawBody

/-- The extracted context `d` built at the top of `classify`. -/
structure DCtx where
  m : String
  s : Nat
  gw : Nat
  tot : Nat
  reqB : RawBody
  edReq : RawBody
  resB : RawBody
  eRes : RawBody

/-- Builds the context `d` from a record, as `classify` does. -/
def dOf (evt : Evt) : DCtx :=
  ⟨evt.httpMethod, evt.status, evt.gatewayLatencyMs, evt.gatewayResponseTimeMs,
   evt.log.entrypointRequest, evt.log.endpointRequest,
   evt.log.endpointResponse, evt.log.entrypointResponse⟩

/-- Embeds `isNoise(evt)`. -/
def isNoise (evt : Evt) : Bool :=
  let uri := evt.uri
  let method := sUpper evt.httpMethod
  method == "OPTIONS" || method == "HEAD" || method == "CONNECT" ||
  evt.status == 499 ||
  (evt.status == 504 && sIncludes uri "/mcp") ||
  (decide (9000 ≤ evt.endpointResponseTimeMs) && sIncludes uri "/mcp") ||
  sStarts uri "/hotels-mcp"

/-- Embeds `fAgent(evt, d)`: the `/bookings-agent` classifier. -/
def fAgent (evt : Evt) (d : DCtx) : List Step :=
  let userText := orS (parseUserRequest d.reqB) (parseUserRequest d.edReq)
  let agentText := orS (parseAgentResponse d.eRes) (parseAgentResponse d.resB)
  let reqBody := strOpt (orB d.reqB d.edReq).str
  let resBody := strOpt (orB d.eRes d.resB).str
  [ Step.divider "User Request",
    Step.arrow "agent" "gateway" (d.m ++ " " ++ evt.uri)
      (some { lane := "gateway",
              text := if userText = "" then "User request" else trunc userText 100,
              rawDetail := reqBody, toolList := none, toolCall := none })
      (some []) (some "Keyless") none,
    Step.arrow "gateway" "agent" (toString d.s ++ " — " ++ toString d.tot ++ "ms")
      (some { lane := "agent",
              text := if agentText = "" then
                  (if d.s < 400 then "Agent replied" else "Error " ++ toString d.s)
                else trunc agentText 120,
              rawDetail := resBody, toolList := none, toolCall := none })
      none none (some ⟨st d.s, toString d.tot ++ "ms"⟩) ]

/-- Embeds `fCurrency(evt, d)`: the `/currency-agent` (A2A) classifier. -/
def fCurrency (evt : Evt) (d : DCtx) : List Step :=
  let userText := orS (parseUserRequest d.reqB) (parseUserRequest d.edReq)
  let agentText := orS (parseAgentResponse d.eRes) (parseAgentResponse d.resB)
  let reqBody := strOpt (orB d.reqB d.edReq).str
  let resBody := strOpt (orB d.eRes d.resB).str
  let uTxt (fb : String) : String := if userText = "" then fb else trunc userText 100
  let aTxt (fb : String) : String :=
    if agentText = "" then (if d.s < 400 then fb else "Error " ++ toString d.s)
    else trunc agentText 100
  [ Step.divider "A2A — Currency Conversion",
    Step.arrow "agent" "gateway" (d.m ++ " " ++ evt.uri)
      (some { lane := "gateway", text := uTxt "Currency conversion request",
              rawDetail := reqBody, toolList := none, toolCall := none })
      (some []) (some "Keyless") none,
    Step.arrow "gateway" "currency" "A2A message/send"
      (some { lane := "currency", text := uTxt "Convert currencies",
              rawDetail := none, toolList := none, toolCall := none })
      none none none,
    Step.arrow "currency" "gateway" (toString d.s)
      (some { lane := "gateway", text := aTxt "Conversion result",
              rawDetail := none, toolList := none, toolCall := none })
      none none none,
    Step.arrow "gateway" "agent" (toString d.s ++ " — " ++ toString d.tot ++ "ms")
      (some { lane := "agent", text := aTxt "Conversion result received",
              rawDetail := resBody, toolList := none, toolCall := none })
      none none (some ⟨st d.s, toString d.tot ++ "ms / " ++ toString d.gw ++ "ms gw"⟩) ]

/-- Embeds `fLLM(evt, d)`: the `/llm-proxy` classifier. -/
def fLLM (evt : Evt) (d : DCtx) : List Step :=
  let req := parseLLMReq d.reqB
  let mdl := if req.model = "" then "LLM" else req.model
  let guardrailsPassed := d.s != 400
  let rateLimitPassed := d.s != 429
  let reqText :=
    if req.hasTools then
      (match req.nMsgs with
        | some n => toString n
        | none => "undefined") ++ " messages + " ++ toString req.nTools ++ " tool definitions"
    else
      (match req.nMsgs with
        | some n => toString n
        | none => "undefined") ++ " messages"
  if 400 ≤ d.s ∧ d.resB.str = "" then
    [ Step.divider "LLM — Blocked by Policy",
      Step.arrow "agent" "gateway" (d.m ++ " " ++ evt.uri)
        (some { lane := "gateway", text := "Forwarding to LLM",
                rawDetail := strOpt d.reqB.str, toolList := none, toolCall := none })
        (some [⟨"AI Guardrails", guardrailsPassed⟩, ⟨"Token Rate Limit", rateLimitPassed⟩])
        (some "Keyless") none,
      Step.arrow "gateway" "agent" (toString d.s ++ " — " ++ toString d.tot ++ "ms")
        (some { lane := "agent", text := "Error " ++ toString d.s,
                rawDetail := strOpt d.eRes.str, toolList := none, toolCall := none })
        none none (some ⟨st d.s, toString d.tot ++ "ms / " ++ toString d.gw ++ "ms gw"⟩) ]
  else
    let res := parseLLMRes (orB d.resB d.eRes)
    let tc := res.hasToolCalls
    let resText :=
      if 400 ≤ d.s then "Error " ++ toString d.s
      else if tc then "Call " ++ String.intercalate ", " res.toolCalls
      else if res.content != "" then
        "Text response" ++ (if res.tokens != 0 then " — " ++ toString res.tokens ++ " tokens" else "")
      else "Response received"
    [ Step.divider (if tc then "LLM — Tool Call Decision" else "LLM — Response"),
      Step.arrow "agent" "gateway" (d.m ++ " " ++ evt.uri)
        (some { lane := "gateway", text := "Forwarding to LLM",
                rawDetail := strOpt d.reqB.str, toolList := none, toolCall := none })
        (some [⟨"AI Guardrails", guardrailsPassed⟩, ⟨"Token Rate Limit", rateLimitPassed⟩])
        (some "Keyless") none,
      Step.arrow "gateway" "llm" mdl
        (some { lane := "llm", text := reqText, rawDetail := none, toolList := none, toolCall := none })
        none none none,
      Step.arrow "llm" "gateway" (toString d.s)
        (some { lane := "gateway", text := resText, rawDetail := none, toolList := none, toolCall := none })
        none none none,
      Step.arrow "gateway" "agent" (toString d.s ++ " — " ++ toString d.tot ++ "ms")
        (some { lane := "agent", text := resText,
                rawDetail := strOpt (orB d.resB d.eRes).str, toolList := none, toolCall := none })
        none none
        (some ⟨st d.s,
               toString d.tot ++ "ms" ++
                 (if res.tokens != 0 then " / " ++ toString res.tokens ++ " tokens" else "") ++
                 " / " ++ toString d.gw ++ "ms gw"⟩) ]

/-- Embeds `fMCP(evt, d, plan)`: the MCP tool-server classifier. -/
def fMCP (evt : Evt) (d : DCtx) (plan : String) : List Step :=
  let mcp := parseMCP d.reqB
  let mcpRes := parseMCPRes (orB d.eRes d.resB)
  let isList := mcp.method == "tools/list"
  let isCall := mcp.method == "tools/call"
  let toolCall : Option ToolCall := if isCall then some ⟨mcp.toolName, mcp.toolArgs⟩ else none
  let resText :=
    if 400 ≤ d.s then "Error " ++ toString d.s
    else match mcpRes with
      | some (.tools ts) => toString ts.length ++ " tools discovered"
      | some (.count n) => toString n ++ " results"
      | some (.text t) => if t != "" then t else (if d.s < 400 then "OK" else toString d.s)
      | none => if d.s < 400 then "OK" else toString d.s
  let toolList : Option (List String) :=
    if 400 ≤ d.s then none
    else match mcpRes with
      | some (.tools ts) => some ts
      | _ => none
  let passed := decide (d.s < 400)
  let policies : List Policy :=
    if plan == "OAuth2" then [⟨"OAuth2", passed⟩, ⟨"MCP ACL", passed⟩] else []
  let dividerLabel :=
    if isList then "Tool Discovery"
    else if isCall then "Tool Call — " ++ (if mcp.toolName = "" then "unknown" else mcp.toolName)
    else "MCP — " ++ (if mcp.method = "" then "?" else mcp.method)
  if isList then
    [ Step.divider dividerLabel,
      Step.arrow "agent" "gateway" (d.m ++ " " ++ evt.uri)
        (some { lane := "gateway", text := "MCP tools/list request",
                rawDetail := strOpt d.reqB.str, toolList := none, toolCall := none })
        (some policies) (some plan) none,
      Step.arrow "gateway" "agent" (toString d.s ++ " — " ++ toString d.tot ++ "ms")
        (some { lane := "agent", text := resText, rawDetail := strOpt (orB d.eRes d.resB).str,
                toolList := toolList, toolCall := none })
        none none (some ⟨st d.s, toString d.tot ++ "ms / " ++ toString d.gw ++ "ms gw"⟩) ]
  else
    [ Step.divider dividerLabel,
      Step.arrow "agent" "gateway" (d.m ++ " " ++ evt.uri)
        (some { lane := "gateway",
                text := "MCP " ++ (if mcp.method = "" then "request" else mcp.method) ++ " — " ++
                        (if mcp.toolName = "" then "?" else mcp.toolName),
                rawDetail := strOpt d.reqB.str, toolList := none, toolCall := toolCall })
        (some policies) (some plan) none,
      Step.arrow "gateway" "api" "GET /accommodations"
        (some { lane := "api", text := if mcp.toolName = "" then "Backend call" else mcp.toolName,
                rawDetail := none, toolList := none, toolCall := none })
        none none none,
      Step.arrow "api" "gateway" (toString d.s)
        (some { lane := "gateway", text := resText, rawDetail := none, toolList := none, toolCall := none })
        none none none,
      Step.arrow "gateway" "agent" (toString d.s ++ " — " ++ toString d.tot ++ "ms")
        (some { lane := "agent", text := resText, rawDetail := strOpt (orB d.eRes d.resB).str,
                toolList := none, toolCall := none })
        none none (some ⟨st d.s, toString d.tot ++ "ms / " ++ toString d.gw ++ "ms gw"⟩) ]

/-- Embeds `fOther(evt, d)`: the generic HTTP fallback classifier. -/
def fOther (evt : Evt) (d : DCtx) : List Step :=
  [ Step.divider ((if evt.apiName = "" then "?" else evt.apiName) ++ " — " ++ d.m ++ " " ++ evt.uri),
    Step.arrow "agent" "gateway" (d.m ++ " " ++ evt.uri)
      (some { lane := "gateway", text := toString d.s, rawDetail := strOpt d.eRes.str,
              toolList := none, toolCall := none })
      none none (some ⟨st d.s, toString d.tot ++ "ms"⟩) ]

/-- Embeds `classify(evt)`: prefix-dispatched protocol classification,
`none` when the record is noise, unclassifiable or a monitoring record. -/
def classify (evt : Evt) : Option (List Step) :=
  if evt.jvm ∨ evt.osp then none
  else if evt.uri = "" ∨ evt.requestId = none then none
  else if isNoise evt then none
  else
    let d := dOf evt
    if sStarts evt.uri "/bookings-agent" then some (fAgent evt d)
    else if sStarts evt.uri "/currency-agent" then some (fCurrency evt d)
    else if sStarts evt.uri "/llm-proxy" || sIncludes evt.apiName "LLM" then some (fLLM evt d)
    else if sStarts evt.uri "/mcp-proxy" then some (fMCP evt d "OAuth2")
    else if sStarts evt.uri "/hotels" && sIncludes evt.uri "/mcp" then some (fMCP evt d "Keyless")
    else if sStarts evt.uri "/hotels" then none
    else some (fOther evt d)

/-- One async correlation entry of `a2aPayloads`: the two halves of an
A2A publish/subscribe exchange with their extracted summary texts. -/
structure A2AEntry where
  request : Option String
  response : Option String
  userText : Option String
  agentText : Option String

/-- The empty correlation entry (`{}` in the source). -/
def emptyA2A : A2AEntry := ⟨none, none, none, none⟩

/-- One buffered record of `pendingEvents`. -/
structure Entry where
  uri : String
  apiName : String
  timestamp : Nat
  steps : List Step
  isAgent : Bool
  requestId : Option Nat
  userText : Option String
  agentText : Option String
  agentRawRequest : Option String
  agentRawResponse : Option String
  agentStatus : Nat
  agentTotalMs : Nat

/-- The whole mutable state of the server: the dedup set (`seen`, in
insertion order), the async correlation table (`a2aPayloads`, an
insertion-ordered map), the transaction buffer (`pendingEvents`) and the
two timers, modelled by their deadlines. -/
structure ServerState where
  seen : List Nat
  a2aPayloads : List (Nat × A2AEntry)
  pendingEvents : List Entry
  bufferTimeout : Option Nat
  flushTimer : Option Nat

/-- The state at process start. -/
def emptyState : ServerState := ⟨[], [], [], none, none⟩

/-- An outbound broadcast message. -/
inductive OutMsg where
  | progress (buffered : Nat)
  | liveSteps (apiName : String) (timestamp : Nat) (steps : List Step)

/-- `a2aPayloads.get(rid)`. -/
def lookupA2A (tbl : List (Nat × A2AEntry)) (rid : Nat) : Option A2AEntry :=
  (tbl.find? (fun kv => kv.1 == rid)).map (fun kv => kv.2)

/-- `a2aPayloads.set(rid, v)`: updates in place when the key exists
(keeping insertion order, as a JavaScript `Map` does), appends otherwise. -/
def mapSet : List (Nat × A2AEntry) → Nat → A2AEntry → List (Nat × A2AEntry)
  | [], rid, v => [(rid, v)]
  | kv :: tl, rid, v => if kv.1 = rid then (rid, v) :: tl else kv :: mapSet tl rid v

/-- `a2aPayloads.delete(rid)`. -/
def mapDel (tbl : List (Nat × A2AEntry)) (rid : Nat) : List (Nat × A2AEntry) :=
  tbl.filter (fun kv => !(kv.1 == rid))

/-- The four guarded merges of async correlation data into a buffered
record (`if (a2a.x && !e.x) e.x = a2a.x`), shared by the flush-time
enrichment, the agent-entry creation and the pending-entry enrichment. -/
def mergeA2A (e : Entry) (a : A2AEntry) : Entry :=
  { e with
    userText := e.userText <|> a.userText,
    agentText := e.agentText <|> a.agentText,
    agentRawRequest := e.agentRawRequest <|> a.request,
    agentRawResponse := e.agentRawResponse <|> a.response }

/-- Updates the first list element satisfying `p` (the mutation of the
record returned by `pendingEvents.find`). -/
def updateFirst (p : α → Bool) (f : α → α) : List α → List α
  | [] => []
  | x :: xs => if p x then f x :: xs else x :: updateFirst p f xs

/-- Updates one half of a correlation entry from an A2A message event. -/
def a2aUpdate (e0 : A2AEntry) (op : String) (payload : RawBody) : A2AEntry :=
  if op = "PUBLISH" then
    { e0 with request := strOpt payload.str, userText := strOpt (parseUserRequest payload) }
  else if op = "SUBSCRIBE" then
    { e0 with response := strOpt payload.str, agentText := strOpt (parseAgentResponse payload) }
  else e0

/-- Stable insertion of a record behind all records with an earlier or
equal timestamp. -/
def insertTs (e : Entry) : List Entry → List Entry
  | [] => [e]
  | x :: xs => if x.timestamp ≤ e.timestamp then x :: insertTs e xs else e :: x :: xs

/-- `innerEvents.sort((a, b) => a.timestamp - b.timestamp)`: a stable
ascending sort by timestamp. -/
def sortByTs (l : List Entry) : List Entry := l.foldl (fun acc e => insertTs e acc) []

/-- The concatenated steps of a list of buffered records. -/
def stepsJoin (es : List Entry) : List Step := (es.map (fun e => e.steps)).flatten

/-- Flush-time enrichment of the terminal record from the correlation
table, consuming (deleting) the entry. -/
def enrichFromTable (tbl : List (Nat × A2AEntry)) (e : Entry) :
    Entry × List (Nat × A2AEntry) :=
  match e.requestId with
  | some rid =>
    match lookupA2A tbl rid with
    | some a => (mergeA2A e a, mapDel tbl rid)
    | none => (e, tbl)
  | none => (e, tbl)

/-- The synthesized leading boundary+transition pair
(client → gateway → agent) built from the terminal record. -/
def leadingSteps (ae : Entry) : List Step :=
  let userText := ae.userText.getD "User request to agent"
  let rawReq := ae.agentRawRequest
  [ Step.divider "User Request",
    Step.arrow "client" "gateway" "POST /bookings-agent/"
      (some { lane := "gateway", text := trunc userText 120, rawDetail := rawReq,
              toolList := none, toolCall := none })
      (some []) (some "Keyless") none,
    Step.arrow "gateway" "agent" "Forwarded"
      (some { lane := "agent", text := "Processing request", rawDetail := none,
              toolList := none, toolCall := none })
      none none none ]

/-- The synthesized trailing boundary+transition pair
(agent → gateway → client) built from the terminal record. -/
def trailingSteps (ae : Entry) : List Step :=
  let rawRes := ae.agentRawResponse
  let s := if ae.agentStatus = 0 then 200 else ae.agentStatus
  let tot := ae.agentTotalMs
  [ Step.divider "Agent Response",
    Step.arrow "agent" "gateway" "A2A response"
      (some { lane := "gateway", text := "Agent response ready", rawDetail := rawRes,
              toolList := none, toolCall := none })
      none none none,
    Step.arrow "gateway" "client" (toString s ++ " — " ++ toString tot ++ "ms")
      (some { lane := "client", text := "Response delivered", rawDetail := rawRes,
              toolList := none, toolCall := none })
      none none (some ⟨st s, toString tot ++ "ms total"⟩) ]

/-- The flow label of a flush without terminal record
(`(events[0] || {}).apiName || '?'`). -/
def labelOf (events : List Entry) : String :=
  match events.head? with
  | some e => if e.apiName = "" then "?" else e.apiName
  | none => "?"

/-- `x.timestamp || Date.now()`. -/
def tsOr (e : Entry) (now : Nat) : Nat := if e.timestamp = 0 then now else e.timestamp

/-- The timestamp of a flush without terminal record
(`events[events.length - 1].timestamp || Date.now()`). -/
def tsNoAgent (events : List Entry) (now : Nat) : Nat :=
  match events.getLast? with
  | some e => tsOr e now
  | none => now

/-- Embeds `flushBuffer()`: cancels both timers, empties the buffer, and
assembles and broadcasts the buffered transaction. `now` stands for
`Date.now()`. -/
def flushBuffer (now : Nat) (S : ServerState) : ServerState × List OutMsg :=
  let events := S.pendingEvents
  let S0 : ServerState :=
    { S with bufferTimeout := none, flushTimer := none, pendingEvents := [] }
  if events.isEmpty then (S0, [])
  else
    let innerEvents := sortByTs (events.filter (fun e => !e.isAgent))
    match events.find? (fun e => e.isAgent) with
    | some ae0 =>
      let (ae, tbl) := enrichFromTable S.a2aPayloads ae0
      let allSteps := leadingSteps ae ++ stepsJoin innerEvents ++ trailingSteps ae
      ({ S0 with a2aPayloads := tbl },
       [OutMsg.liveSteps "Complete Flow" (tsOr ae0 now) allSteps])
    | none =>
      (S0, [OutMsg.liveSteps (labelOf events) (tsNoAgent events now) (stepsJoin innerEvents)])

/-- Builds the extra fields of a buffered terminal (`/bookings-agent`)
record, merging any already-present async correlation data. -/
def mkAgentEntry (S : ServerState) (evt : Evt) (base : Entry) : Entry :=
  let reqB := orB evt.log.entrypointRequest evt.log.endpointRequest
  let eRes := orB evt.log.entrypointResponse evt.log.endpointResponse
  let e1 : Entry :=
    { base with
      userText := strOpt (parseUserRequest reqB),
      agentText := strOpt (parseAgentResponse eRes),
      agentRawResponse := strOpt eRes.str,
      agentRawRequest := strOpt reqB.str,
      agentStatus := evt.status,
      agentTotalMs := evt.gatewayResponseTimeMs }
  match evt.requestId with
  | some rid => mergeA2A e1 ((lookupA2A S.a2aPayloads rid).getD emptyA2A)
  | none => e1

/-- The buffered entry built from a classified record
(`{ uri, apiName, timestamp, steps, isAgent, requestId }`). -/
def mkBase (evt : Evt) (steps : List Step) : Entry :=
  { uri := evt.uri, apiName := evt.apiName, timestamp := evt.timestamp,
    steps := steps, isAgent := sStarts evt.uri "/bookings-agent",
    requestId := evt.requestId,
    userText := none, agentText := none, agentRawRequest := none,
    agentRawResponse := none, agentStatus := 0, agentTotalMs := 0 }

/-- The classification/buffering tail of `processEvent` (after the A2A
branch and the dedup check). -/
def ingest (now : Nat) (S : ServerState) (evt : Evt) : ServerState × List OutMsg :=
  match classify evt with
  | none => (S, [])
  | some steps =>
    if steps.isEmpty then (S, [])
    else
      let base := mkBase evt steps
      let entry := if base.isAgent then mkAgentEntry S evt base else base
      let pend := S.pendingEvents ++ [entry]
      let bt := match S.bufferTimeout with
        | none => some (now + 60000)
        | some t => some t
      let ft := if base.isAgent then some (now + 500) else S.flushTimer
      ({ S with pendingEvents := pend, bufferTimeout := bt, flushTimer := ft },
       [OutMsg.progress pend.length])

/-- Embeds `processEvent(evt)`: the A2A message branch, the dedup check
and classification → buffering. `now` stands for the current time used to
arm timers. -/
def processEvent (now : Nat) (S : ServerState) (evt : Evt) : ServerState × List OutMsg :=
  if evt.connectorId = "agent-to-agent" ∧ evt.messagePayload.str ≠ "" then
    match evt.requestId with
    | none => (S, [])
    | some rid =>
      let e1 := a2aUpdate ((lookupA2A S.a2aPayloads rid).getD emptyA2A)
                  evt.operation evt.messagePayload
      let tbl := mapSet S.a2aPayloads rid e1
      let pend := updateFirst (fun p => p.isAgent && p.requestId == some rid)
                    (fun p => mergeA2A p e1) S.pendingEvents
      let tbl := if 500 < tbl.length then tbl.drop 250 else tbl
      ({ S with a2aPayloads := tbl, pendingEvents := pend }, [])
  else if evt.uri = "" ∧ ¬evt.jvm then (S, [])
  else
    match evt.requestId with
    | some rid =>
      if rid ∈ S.seen then (S, [])
      else
        let sn := S.seen ++ [rid]
        let sn := if 5000 < sn.length then sn.drop 2500 else sn
        ingest now { S with seen := sn } evt
    | none => ingest now S evt

/-- One newline-delimited line of the ingestion stream after the
`JSON.parse` attempt: `none` for an unparsable line (the catch branch). -/
def processLine (now : Nat) (S : ServerState) (line : Option Evt) : ServerState × List OutMsg :=
  match line with
  | none => (S, [])
  | some evt => processEvent now S evt

/-- An A2A message event (`connectorId: 'agent-to-agent'`, payload in
`message.payload`, no `uri`). -/
def mkA2AEvt (rid : Nat) (op : String) (payload : RawBody) : Evt :=
  { jvm := false, osp := false, uri := "", apiName := "", httpMethod := "",
    status := 0, gatewayLatencyMs := 0, gatewayResponseTimeMs := 0,
    endpointResponseTimeMs := 0, timestamp := 0, requestId := some rid,
    log := noLog, connectorId := "agent-to-agent", operation := op,
    messagePayload := payload }

/-- A blocked LLM-proxy record: outcome 500, no response body at all. -/
def evtC1 : Evt :=
  { jvm := false, osp := false, uri := "/llm-proxy/v1/chat/completions",
    apiName := "LLM API", httpMethod := "POST", status := 500,
    gatewayLatencyMs := 3, gatewayResponseTimeMs := 20, endpointResponseTimeMs := 0,
    timestamp := 4, requestId := some 31, log := noLog,
    connectorId := "", operation := "", messagePayload := .absent }

/-- A guardrails-blocked LLM-proxy record: outcome 400, no response body. -/
def evtC1w : Evt :=
  { jvm := false, osp := false, uri := "/llm-proxy/v1/chat/completions",
    apiName := "LLM API", httpMethod := "POST", status := 400,
    gatewayLatencyMs := 2, gatewayResponseTimeMs := 15, endpointResponseTimeMs := 0,
    timestamp := 6, requestId := some 32, log := noLog,
    connectorId := "", operation := "", messagePayload := .absent }

/-- An LLM-proxy record with a 403 outcome (4xx, neither 400 nor 429). -/
def evtC6 : Evt :=
  { jvm := false, osp := false, uri := "/llm-proxy/v1/chat/completions",
    apiName := "LLM API", httpMethod := "POST", status := 403,
    gatewayLatencyMs := 1, gatewayResponseTimeMs := 9, endpointResponseTimeMs := 0,
    timestamp := 8, requestId := some 33, log := noLog,
    connectorId := "", operation := "", messagePayload := .absent }

/-- A terminal `/bookings-agent` record used for the flush witness. -/
def evtA2 : Evt :=
  { jvm := false, osp := false, uri := "/bookings-agent/", apiName := "Bookings Agent",
    httpMethod := "POST", status := 200, gatewayLatencyMs := 4,
    gatewayResponseTimeMs := 120, endpointResponseTimeMs := 0,
    timestamp := 7, requestId := some 2, log := noLog,
    connectorId := "", operation := "", messagePayload := .absent }

/-- The state after ingesting `evtA2` at time 10. -/
def stC2 : ServerState := (processEvent 10 emptyState evtA2).1

/-- The terminal entry buffered by ingesting `evtA2`. -/
def aeC2 : Entry :=
  mkAgentEntry { emptyState with seen := [2] } evtA2
    { uri := evtA2.uri, apiName := evtA2.apiName, timestamp := evtA2.timestamp,
      steps := fAgent evtA2 (dOf evtA2), isAgent := true, requestId := some 2,
      userText := none, agentText := none, agentRawRequest := none,
      agentRawResponse := none, agentStatus := 0, agentTotalMs := 0 }

/-- A well-formed classifiable record used for the dedup witness. -/
def evtC4 : Evt :=
  { jvm := false, osp := false, uri := "/shop/orders", apiName := "Shop",
    httpMethod := "GET", status := 200, gatewayLatencyMs := 1,
    gatewayResponseTimeMs := 12, endpointResponseTimeMs := 0,
    timestamp := 3, requestId := some 7, log := noLog,
    connectorId := "", operation := "", messagePayload := .absent }

/-- An inner (non-terminal) LLM-proxy record used for the orphan flush. -/
def evtC7 : Evt :=
  { jvm := false, osp := false, uri := "/llm-proxy/v1/chat", apiName := "LLM API",
    httpMethod := "POST", status := 200, gatewayLatencyMs := 3,
    gatewayResponseTimeMs := 40, endpointResponseTimeMs := 0,
    timestamp := 5, requestId := some 11, log := noLog,
    connectorId := "", operation := "", messagePayload := .absent }

/-- The state holding only the orphan record `evtC7`. -/
def stC7 : ServerState := (processEvent 0 emptyState evtC7).1

/-- Another inner LLM-proxy record, for the amended-claim witness. -/
def evtC7w : Evt :=
  { jvm := false, osp := false, uri := "/llm-proxy/v1/chat", apiName := "LLM API",
    httpMethod := "POST", status := 200, gatewayLatencyMs := 2,
    gatewayResponseTimeMs := 30, endpointResponseTimeMs := 0,
    timestamp := 9, requestId := some 12, log := noLog,
    connectorId := "", operation := "", messagePayload := .absent }

/-- The state holding only the orphan record `evtC7w`. -/
def stC7w : ServerState := (processEvent 0 emptyState evtC7w).1

/-- A record whose four bodies are all present but unparsable. -/
def evtC9 : Evt :=
  { jvm := false, osp := false, uri := "/llm-proxy/v1/chat", apiName := "LLM API",
    httpMethod := "POST", status := 200, gatewayLatencyMs := 2,
    gatewayResponseTimeMs := 25, endpointResponseTimeMs := 0,
    timestamp := 4, requestId := some 13,
    log := ⟨.malformed "oops", .malformed "oops", .malformed "not json", .malformed "not json"⟩,
    connectorId := "", operation := "", messagePayload := .absent }

/-- A 500-entry correlation table keyed 0..499 (oldest first). -/
def tbl500 : List (Nat × A2AEntry) :=
  (List.range 500).map (fun i => (i, ⟨some "req", none, none, none⟩))

/-- A buffered terminal record whose causal identifier is key 0. -/
def agentPendingC8 : Entry :=
  { uri := "/bookings-agent/", apiName := "Bookings Agent", timestamp := 1,
    steps := [Step.divider "User Request"], isAgent := true, requestId := some 0,
    userText := none, agentText := none, agentRawRequest := none,
    agentRawResponse := none, agentStatus := 200, agentTotalMs := 5 }

/-- A state with a full correlation table and a buffered terminal record
awaiting flush whose causal identifier is the oldest table key. -/
def stC8 : ServerState := ⟨[], tbl500, [agentPendingC8], some 60000, some 500⟩

/-- A fresh A2A half that pushes the table over its bound. -/
def evtC8 : Evt := mkA2AEvt 1000 "PUBLISH" (.malformed "x")

/-- A terminal `/bookings-agent` record, first of the two in the C10 run. -/
def evtA10 : Evt :=
  { jvm := false, osp := false, uri := "/bookings-agent/", apiName := "Bookings Agent",
    httpMethod := "POST", status := 200, gatewayLatencyMs := 5,
    gatewayResponseTimeMs := 90, endpointResponseTimeMs := 0,
    timestamp := 10, requestId := some 21, log := noLog,
    connectorId := "", operation := "", messagePayload := .absent }

/-- A second terminal record for the same in-flight buffer. -/
def evtB10 : Evt :=
  { jvm := false, osp := false, uri := "/bookings-agent/", apiName := "Bookings Agent",
    httpMethod := "POST", status := 200, gatewayLatencyMs := 6,
    gatewayResponseTimeMs := 95, endpointResponseTimeMs := 0,
    timestamp := 12, requestId := some 22, log := noLog,
    connectorId := "", operation := "", messagePayload := .absent }

/-- The state after ingesting the first terminal record `evtA10`. -/
def stW10 : ServerState := (processEvent 0 emptyState evtA10).1

/-- The terminal entry buffered by ingesting `evtA10`. -/
def e1W10 : Entry :=
  mkAgentEntry { emptyState with seen := [21] } evtA10
    { uri := evtA10.uri, apiName := evtA10.apiName, timestamp := evtA10.timestamp,
      steps := fAgent evtA10 (dOf evtA10), isAgent := true, requestId := some 21,
      userText := none, agentText := none, agentRawRequest := none,
      agentRawResponse := none, agentStatus := 0, agentTotalMs := 0 }

theorem ingest_seen (now : Nat) (S : ServerState) (evt : Evt) :
    (ingest now S evt).1.seen = S.seen := by
  unfold ingest
  cases classify evt with
  | none => rfl
  | some steps =>
    by_cases h : steps.isEmpty <;> simp [h]

theorem ingest_a2a (now : Nat) (S : ServerState) (evt : Evt) :
    (ingest now S evt).1.a2aPayloads = S.a2aPayloads := by
  unfold ingest
  cases classify evt with
  | none => rfl
  | some steps =>
    by_cases h : steps.isEmpty <;> simp [h]

theorem seen_mem_after_add (l : List Nat) (rid : Nat) :
    rid ∈ (if 5000 < (l ++ [rid]).length then (l ++ [rid]).drop 2500 else l ++ [rid]) := by
  split
  · next h =>
    have hle : 2500 ≤ l.length := by
      simp only [List.length_append, List.length_singleton] at h
      omega
    rw [List.drop_append_of_le_length hle]
    simp
  · simp

theorem processEvent_mem_skip (now : Nat) (S : ServerState) (evt : Evt) (rid : Nat)
    (hconn : evt.connectorId ≠ "agent-to-agent")
    (hrid : evt.requestId = some rid)
    (hmem : rid ∈ S.seen) :
    processEvent now S evt = (S, []) := by
  unfold processEvent
  rw [if_neg (by intro h; exact hconn h.1)]
  by_cases hu : evt.uri = "" ∧ ¬evt.jvm
  · rw [if_pos hu]
  · rw [if_neg hu, hrid]
    simp [hmem]

/-- C4: for a well-formed (non-A2A) record carrying a record identifier,
processing the same record a second time within the dedup window produces
zero classified steps, no broadcast, and leaves the whole state — in
particular the transaction buffer — unchanged. -/
theorem dedup_idempotent (now now' : Nat) (S : ServerState) (evt : Evt) (rid : Nat)
    (hconn : evt.connectorId ≠ "agent-to-agent")
    (hrid : evt.requestId = some rid) :
    processEvent now' (processEvent now S evt).1 evt = ((processEvent now S evt).1, []) := by
  by_cases hu : evt.uri = "" ∧ ¬evt.jvm
  · have h1 : processEvent now S evt = (S, []) := by
      unfold processEvent
      rw [if_neg (by intro h; exact hconn h.1), if_pos hu]
    rw [h1]
    unfold processEvent
    rw [if_neg (by intro h; exact hconn h.1), if_pos hu]
  · have hmem : rid ∈ (processEvent now S evt).1.seen := by
      unfold processEvent
      rw [if_neg (by intro h; exact hconn h.1), if_neg hu, hrid]
      by_cases hseen : rid ∈ S.seen
      · simp [hseen]
      · simp only [hseen, if_neg, ite_false]
        rw [ingest_seen]
        exact seen_mem_after_add S.seen rid
    exact processEvent_mem_skip now' _ evt rid hconn hrid hmem

/-- C4 witness: a concrete record processed twice; the second occurrence
is a no-op. -/
theorem dedup_idempotent_witness :
    processEvent 1 (processEvent 0 emptyState evtC4).1 evtC4 =
      ((processEvent 0 emptyState evtC4).1, []) :=
  dedup_idempotent 0 1 emptyState evtC4 7 (by decide) rfl

/-- C3: a flush always clears all buffer state — the record list and both
timers — before returning; a second flush of the cleared buffer emits
nothing (the buffer flushes at most once per accumulation cycle), and any
single record processed after the flush leaves at most one buffered record
(the next cycle starts from scratch: nothing buffered before the flush can
reappear). -/
theorem flush_clears_state (now now' : Nat) (S : ServerState) :
    (flushBuffer now S).1.pendingEvents = [] ∧
    (flushBuffer now S).1.bufferTimeout = none ∧
    (flushBuffer now S).1.flushTimer = none ∧
    (flushBuffer now' (flushBuffer now S).1).2 = [] ∧
    (∀ (n : Nat) (evt : Evt),
      (processEvent n (flushBuffer now S).1 evt).1.pendingEvents.length ≤ 1) := by
  have hstate : (flushBuffer now S).1.pendingEvents = [] ∧
      (flushBuffer now S).1.bufferTimeout = none ∧
      (flushBuffer now S).1.flushTimer = none := by
    unfold flushBuffer
    by_cases h : S.pendingEvents.isEmpty
    · simp [h]
    · simp only [h, ite_false]
      cases hf : S.pendingEvents.find? (fun e => e.isAgent) <;> simp
  refine ⟨hstate.1, hstate.2.1, hstate.2.2, ?_, ?_⟩
  · set T := (flushBuffer now S).1 with hT
    have hpe : T.pendingEvents = [] := hstate.1
    unfold flushBuffer
    simp [hpe]
  · intro n evt
    unfold processEvent
    by_cases h1 : evt.connectorId = "agent-to-agent" ∧ evt.messagePayload.str ≠ ""
    · rw [if_pos h1]
      cases hr : evt.requestId with
      | none => simp [hstate.1]
      | some rid =>
        simp only []
        have : ∀ (p : Entry → Bool) (f : Entry → Entry) (l : List Entry),
            (updateFirst p f l).length = l.length := by
          intro p f l
          induction l with
          | nil => rfl
          | cons x xs ih => unfold updateFirst; split <;> simp [ih]
        simp [this, hstate.1]
    · rw [if_neg h1]
      by_cases h2 : evt.uri = "" ∧ ¬evt.jvm
      · simp [h2, hstate.1]
      · rw [if_neg h2]
        have hing : ∀ (T : ServerState), T.pendingEvents = [] →
            (ingest n T evt).1.pendingEvents.length ≤ 1 := by
          intro T hT
          unfold ingest
          cases classify evt with
          | none => simp [hT]
          | some steps =>
            by_cases hs : steps.isEmpty <;> simp [hs, hT]
        cases hr : evt.requestId with
        | none => exact hing _ hstate.1
        | some rid =>
          by_cases hm : rid ∈ (flushBuffer now S).1.seen
          · simp [hm, hstate.1]
          · simp only [hm, ite_false]
            exact hing _ hstate.1

/-- C1 (amended): for an LLM-proxy record with a failure outcome code and
an absent response body, the classifier emits only the divider and the two
caller-facing legs (agent → gateway and gateway → agent), no transition
from or to the language-model participant; the request leg carries the two
policy annotations, whose failed flag is set exactly when the code equals
400 (guard rail) or 429 (rate limit). -/
theorem fLLM_blocked_no_model_legs (evt : Evt) (d : DCtx)
    (hs : 400 ≤ d.s) (hb : d.resB.str = "") :
    fLLM evt d =
      [ Step.divider "LLM — Blocked by Policy",
        Step.arrow "agent" "gateway" (d.m ++ " " ++ evt.uri)
          (some { lane := "gateway", text := "Forwarding to LLM",
                  rawDetail := strOpt d.reqB.str, toolList := none, toolCall := none })
          (some [⟨"AI Guardrails", d.s != 400⟩, ⟨"Token Rate Limit", d.s != 429⟩])
          (some "Keyless") none,
        Step.arrow "gateway" "agent" (toString d.s ++ " — " ++ toString d.tot ++ "ms")
          (some { lane := "agent", text := "Error " ++ toString d.s,
                  rawDetail := strOpt d.eRes.str, toolList := none, toolCall := none })
          none none (some ⟨st d.s, toString d.tot ++ "ms / " ++ toString d.gw ++ "ms gw"⟩) ] ∧
    (fLLM evt d).all (fun stp => !stepTouches "llm" stp) = true := by
  have h1 : (fLLM evt d).all (fun stp => !stepTouches "llm" stp) = true := by
    simp only [fLLM]
    rw [if_pos ⟨hs, hb⟩]
    rfl
  refine ⟨?_, h1⟩
  simp only [fLLM]
  rw [if_pos ⟨hs, hb⟩]

/-- C1 witness: a concrete 400-blocked LLM-proxy record with no response
body; the amended theorem applies. -/
theorem fLLM_blocked_no_model_legs_witness :
    fLLM evtC1w (dOf evtC1w) =
      [ Step.divider "LLM — Blocked by Policy",
        Step.arrow "agent" "gateway" ((dOf evtC1w).m ++ " " ++ evtC1w.uri)
          (some { lane := "gateway", text := "Forwarding to LLM",
                  rawDetail := strOpt (dOf evtC1w).reqB.str, toolList := none, toolCall := none })
          (some [⟨"AI Guardrails", (dOf evtC1w).s != 400⟩, ⟨"Token Rate Limit", (dOf evtC1w).s != 429⟩])
          (some "Keyless") none,
        Step.arrow "gateway" "agent"
          (toString (dOf evtC1w).s ++ " — " ++ toString (dOf evtC1w).tot ++ "ms")
          (some { lane := "agent", text := "Error " ++ toString (dOf evtC1w).s,
                  rawDetail := strOpt (dOf evtC1w).eRes.str, toolList := none, toolCall := none })
          none none
          (some ⟨st (dOf evtC1w).s,
                 toString (dOf evtC1w).tot ++ "ms / " ++ toString (dOf evtC1w).gw ++ "ms gw"⟩) ] ∧
    (fLLM evtC1w (dOf evtC1w)).all (fun stp => !stepTouches "llm" stp) = true :=
  fLLM_blocked_no_model_legs evtC1w (dOf evtC1w) (by decide) rfl

/-- C1 counterexample: a 500-outcome LLM-proxy record with an absent
response body satisfies the claim's hypotheses, yet its request leg
carries no failed policy annotation — both annotations are passed. -/
theorem fLLM_blocked_cex :
    400 ≤ (dOf evtC1).s ∧ (dOf evtC1).resB.str = "" ∧
    stepPolicies ((fLLM evtC1 (dOf evtC1))[1]?) =
      some [⟨"AI Guardrails", true⟩, ⟨"Token Rate Limit", true⟩] ∧
    (fLLM evtC1 (dOf evtC1)).all (fun stp => !stepTouches "llm" stp) = true :=
  ⟨by decide, rfl, rfl, rfl⟩

/-- C6 (amended): the request leg of every LLM-proxy classification
carries exactly the guard-rail and rate-limit annotations, failed
precisely when the outcome code equals 400 (guard rail) or 429 (rate
limit) — not for other 4xx codes; the MCP request leg under the OAuth2
plan carries OAuth2 and MCP ACL annotations, passed exactly when the call
succeeded (code < 400), and no policies under the Keyless plan. -/
theorem policy_annotations (evt : Evt) (d : DCtx) :
    stepPolicies ((fLLM evt d)[1]?) =
      some [⟨"AI Guardrails", d.s != 400⟩, ⟨"Token Rate Limit", d.s != 429⟩] ∧
    stepPolicies ((fMCP evt d "OAuth2")[1]?) =
      some [⟨"OAuth2", decide (d.s < 400)⟩, ⟨"MCP ACL", decide (d.s < 400)⟩] ∧
    stepPolicies ((fMCP evt d "Keyless")[1]?) = some [] := by
  refine ⟨?_, ?_, ?_⟩
  · unfold fLLM
    by_cases h : 400 ≤ d.s ∧ d.resB.str = "" <;> simp [h, stepPolicies]
  · unfold fMCP
    by_cases h : (parseMCP d.reqB).method == "tools/list" <;> simp [h, stepPolicies]
  · unfold fMCP
    by_cases h : (parseMCP d.reqB).method == "tools/list" <;> simp [h, stepPolicies]

/-- C6 counterexample: a 403 outcome — a non-success 4xx code on the
content-safety-carrying LLM-proxy call — yields a guard-rail annotation
marked passed, not failed. -/
theorem policy_annotations_cex :
    (dOf evtC6).s = 403 ∧ (400:Nat) ≤ 403 ∧ (403:Nat) < 500 ∧
    stepPolicies ((fLLM evtC6 (dOf evtC6))[1]?) =
      some [⟨"AI Guardrails", true⟩, ⟨"Token Rate Limit", true⟩] :=
  ⟨rfl, by decide, by decide, rfl⟩

/-- C2: on a flush whose buffer holds a terminal record, the published
output is exactly the leading boundary+transition pair synthesized from
the terminal record, then the non-terminal records' steps sorted by
timestamp, then the trailing boundary+transition pair, where the terminal
record has first been enriched with any async correlation data present at
flush time; the merge prefers text already known on the record over the
correlation data (and the generic fallback is used only when both are
absent, inside `leadingSteps`/`trailingSteps`). -/
theorem flush_assembles (now : Nat) (S : ServerState) (ae0 : Entry)
    (hfind : S.pendingEvents.find? (fun e => e.isAgent) = some ae0) :
    (flushBuffer now S).2 =
      [OutMsg.liveSteps "Complete Flow" (tsOr ae0 now)
        (leadingSteps (enrichFromTable S.a2aPayloads ae0).1 ++
         stepsJoin (sortByTs (S.pendingEvents.filter (fun e => !e.isAgent))) ++
         trailingSteps (enrichFromTable S.a2aPayloads ae0).1)] ∧
    (∀ (e : Entry) (a : A2AEntry),
      (mergeA2A e a).userText = (e.userText <|> a.userText) ∧
      (mergeA2A e a).agentText = (e.agentText <|> a.agentText) ∧
      (mergeA2A e a).agentRawRequest = (e.agentRawRequest <|> a.request) ∧
      (mergeA2A e a).agentRawResponse = (e.agentRawResponse <|> a.response)) := by
  constructor
  · have hne : ¬S.pendingEvents.isEmpty = true := by
      cases h : S.pendingEvents with
      | nil => rw [h] at hfind; simp [List.find?] at hfind
      | cons x xs => simp [h]
    unfold flushBuffer
    simp [hne, hfind]
  · intro e a
    exact ⟨rfl, rfl, rfl, rfl⟩

/-- C2 witness: flushing the concrete one-terminal-record buffer `stC2`
produces exactly the leading pair, no inner steps, and the trailing pair. -/
theorem flush_assembles_witness :
    (flushBuffer 100 stC2).2 =
      [OutMsg.liveSteps "Complete Flow" (tsOr aeC2 100)
        (leadingSteps (enrichFromTable stC2.a2aPayloads aeC2).1 ++
         stepsJoin (sortByTs (stC2.pendingEvents.filter (fun e => !e.isAgent))) ++
         trailingSteps (enrichFromTable stC2.a2aPayloads aeC2).1)] :=
  (flush_assembles 100 stC2 aeC2 (by rfl)).1

/-- C7 (amended): on a flush of a buffer with no terminal record, the
published label is the first buffered record's originating service name
(`?` when empty) and the step list is exactly the concatenation of the
buffered records' own steps, sorted by timestamp — no additional generic
leading boundary step is prepended. -/
theorem flush_no_terminal (now : Nat) (S : ServerState)
    (hne : S.pendingEvents ≠ [])
    (hfind : S.pendingEvents.find? (fun e => e.isAgent) = none) :
    (flushBuffer now S).2 =
      [OutMsg.liveSteps (labelOf S.pendingEvents) (tsNoAgent S.pendingEvents now)
        (stepsJoin (sortByTs (S.pendingEvents.filter (fun e => !e.isAgent))))] := by
  have hne' : ¬S.pendingEvents.isEmpty = true := by
    simpa [List.isEmpty_iff] using hne
  unfold flushBuffer
  simp [hne', hfind]

/-- C7 witness: flushing the concrete orphan buffer `stC7w` emits the
record's own steps under its service name. -/
theorem flush_no_terminal_witness :
    (flushBuffer 99 stC7w).2 =
      [OutMsg.liveSteps (labelOf stC7w.pendingEvents) (tsNoAgent stC7w.pendingEvents 99)
        (stepsJoin (sortByTs (stC7w.pendingEvents.filter (fun e => !e.isAgent))))] :=
  flush_no_terminal 99 stC7w (fun h => Nat.one_ne_zero (congrArg List.length h)) (by rfl)

/-- C7 counterexample: the orphan buffer holding only the record `evtC7`
flushes to exactly the record's five classifier steps — the first output
step is the record's own protocol divider and the output length equals the
record's step count, so no generic leading boundary step was prepended. -/
theorem flush_no_terminal_cex :
    (flushBuffer 99 stC7).2 = [OutMsg.liveSteps "LLM API" 5 (fLLM evtC7 (dOf evtC7))] ∧
    (fLLM evtC7 (dOf evtC7)).length = 5 ∧
    (fLLM evtC7 (dOf evtC7))[0]? = some (Step.divider "LLM — Response") :=
  ⟨by rfl, by rfl, by rfl⟩

theorem lookupA2A_mapSet_self (tbl : List (Nat × A2AEntry)) (rid : Nat) (v : A2AEntry) :
    lookupA2A (mapSet tbl rid v) rid = some v := by
  induction tbl with
  | nil => simp [mapSet, lookupA2A, List.find?]
  | cons kv tl ih =>
    unfold mapSet
    by_cases h : kv.1 = rid
    · simp [h, lookupA2A, List.find?]
    · simp only [h, ite_false]
      unfold lookupA2A at ih ⊢
      simp only [List.find?]
      have : (kv.1 == rid) = false := by simpa using h
      rw [this]
      exact ih

theorem mapSet_length (tbl : List (Nat × A2AEntry)) (rid : Nat) (v : A2AEntry) :
    (mapSet tbl rid v).length =
      if (lookupA2A tbl rid).isSome then tbl.length else tbl.length + 1 := by
  induction tbl with
  | nil => simp [mapSet, lookupA2A, List.find?]
  | cons kv tl ih =>
    unfold mapSet lookupA2A
    by_cases h : kv.1 = rid
    · have : (kv.1 == rid) = true := by simpa using h
      simp [h, List.find?, this]
    · have hb : (kv.1 == rid) = false := by simpa using h
      simp only [h, ite_false, List.length_cons, List.find?, hb]
      unfold lookupA2A at ih
      rw [ih]
      by_cases h2 : (List.find? (fun kv => kv.1 == rid) tl).isSome <;> simp [h2]

theorem processEvent_a2a_state (n : Nat) (S : ServerState) (rid : Nat)
    (op : String) (payload : RawBody) (hpay : payload.str ≠ "") :
    (processEvent n S (mkA2AEvt rid op payload)).1.a2aPayloads =
      (if 500 < (mapSet S.a2aPayloads rid
            (a2aUpdate ((lookupA2A S.a2aPayloads rid).getD emptyA2A) op payload)).length
       then (mapSet S.a2aPayloads rid
            (a2aUpdate ((lookupA2A S.a2aPayloads rid).getD emptyA2A) op payload)).drop 250
       else mapSet S.a2aPayloads rid
            (a2aUpdate ((lookupA2A S.a2aPayloads rid).getD emptyA2A) op payload)) := by
  unfold processEvent
  rw [if_pos ⟨rfl, hpay⟩]
  rfl

theorem a2a_step_fresh (n : Nat) (S : ServerState) (rid : Nat) (op : String)
    (payload : RawBody) (hpay : payload.str ≠ "")
    (hfresh : lookupA2A S.a2aPayloads rid = none)
    (hcap : S.a2aPayloads.length ≤ 499) :
    (processEvent n S (mkA2AEvt rid op payload)).1.a2aPayloads =
      mapSet S.a2aPayloads rid (a2aUpdate emptyA2A op payload) := by
  have h := processEvent_a2a_state n S rid op payload hpay
  rw [hfresh] at h
  simp only [Option.getD_none] at h
  rw [h]
  have hlen : (mapSet S.a2aPayloads rid (a2aUpdate emptyA2A op payload)).length =
      S.a2aPayloads.length + 1 := by
    rw [mapSet_length, hfresh]
    rfl
  rw [if_neg (by rw [hlen]; omega)]

theorem a2a_step_known (n : Nat) (S : ServerState) (rid : Nat) (op : String)
    (payload : RawBody) (hpay : payload.str ≠ "") (e0 : A2AEntry)
    (hlook : lookupA2A S.a2aPayloads rid = some e0)
    (hcap : S.a2aPayloads.length ≤ 500) :
    (processEvent n S (mkA2AEvt rid op payload)).1.a2aPayloads =
      mapSet S.a2aPayloads rid (a2aUpdate e0 op payload) := by
  have h := processEvent_a2a_state n S rid op payload hpay
  rw [hlook] at h
  simp only [Option.getD_some] at h
  rw [h]
  have hlen : (mapSet S.a2aPayloads rid (a2aUpdate e0 op payload)).length =
      S.a2aPayloads.length := by
    rw [mapSet_length, hlook]
    rfl
  rw [if_neg (by rw [hlen]; omega)]

/-- C5: the two halves of an async correlation exchange tolerate either
arrival order — after recording both halves under one causal identifier
(in either order) the table lookup used by the flush (`consume`) yields
both payloads, and after recording only one half it yields exactly that
half with `null` for the other; the lookup is a total function, it never
blocks. -/
theorem a2a_order_tolerance (n1 n2 : Nat) (S : ServerState) (rid : Nat) (p q : RawBody)
    (hfresh : lookupA2A S.a2aPayloads rid = none)
    (hcap : S.a2aPayloads.length ≤ 499)
    (hp : p.str ≠ "") (hq : q.str ≠ "") :
    lookupA2A (processEvent n2 (processEvent n1 S (mkA2AEvt rid "PUBLISH" p)).1
        (mkA2AEvt rid "SUBSCRIBE" q)).1.a2aPayloads rid =
      some ⟨strOpt p.str, strOpt q.str, strOpt (parseUserRequest p), strOpt (parseAgentResponse q)⟩ ∧
    lookupA2A (processEvent n2 (processEvent n1 S (mkA2AEvt rid "SUBSCRIBE" q)).1
        (mkA2AEvt rid "PUBLISH" p)).1.a2aPayloads rid =
      some ⟨strOpt p.str, strOpt q.str, strOpt (parseUserRequest p), strOpt (parseAgentResponse q)⟩ ∧
    lookupA2A (processEvent n1 S (mkA2AEvt rid "PUBLISH" p)).1.a2aPayloads rid =
      some ⟨strOpt p.str, none, strOpt (parseUserRequest p), none⟩ ∧
    lookupA2A (processEvent n1 S (mkA2AEvt rid "SUBSCRIBE" q)).1.a2aPayloads rid =
      some ⟨none, strOpt q.str, none, strOpt (parseAgentResponse q)⟩ := by
  have hPub : a2aUpdate emptyA2A "PUBLISH" p =
      ⟨strOpt p.str, none, strOpt (parseUserRequest p), none⟩ := rfl
  have hSub : a2aUpdate emptyA2A "SUBSCRIBE" q =
      ⟨none, strOpt q.str, none, strOpt (parseAgentResponse q)⟩ := rfl
  have h1 := a2a_step_fresh n1 S rid "PUBLISH" p hp hfresh hcap
  have h1' := a2a_step_fresh n1 S rid "SUBSCRIBE" q hq hfresh hcap
  rw [hPub] at h1
  rw [hSub] at h1'
  have hlook1 : lookupA2A (processEvent n1 S (mkA2AEvt rid "PUBLISH" p)).1.a2aPayloads rid =
      some ⟨strOpt p.str, none, strOpt (parseUserRequest p), none⟩ := by
    rw [h1]; exact lookupA2A_mapSet_self _ _ _
  have hlook1' : lookupA2A (processEvent n1 S (mkA2AEvt rid "SUBSCRIBE" q)).1.a2aPayloads rid =
      some ⟨none, strOpt q.str, none, strOpt (parseAgentResponse q)⟩ := by
    rw [h1']; exact lookupA2A_mapSet_self _ _ _
  have hlen1 : (processEvent n1 S (mkA2AEvt rid "PUBLISH" p)).1.a2aPayloads.length ≤ 500 := by
    rw [h1, mapSet_length, hfresh]
    simp only [Option.isSome_none, Bool.false_eq_true, if_false]
    omega
  have hlen1' : (processEvent n1 S (mkA2AEvt rid "SUBSCRIBE" q)).1.a2aPayloads.length ≤ 500 := by
    rw [h1', mapSet_length, hfresh]
    simp only [Option.isSome_none, Bool.false_eq_true, if_false]
    omega
  have h2 := a2a_step_known n2 _ rid "SUBSCRIBE" q hq _ hlook1 hlen1
  have h2' := a2a_step_known n2 _ rid "PUBLISH" p hp _ hlook1' hlen1'
  refine ⟨?_, ?_, hlook1, hlook1'⟩
  · rw [h2]
    exact lookupA2A_mapSet_self _ _ _
  · rw [h2']
    exact lookupA2A_mapSet_self _ _ _

/-- C5 witness: a concrete pair of halves recorded against the empty
table, in both orders. -/
theorem a2a_order_tolerance_witness :
    lookupA2A (processEvent 1 (processEvent 0 emptyState
        (mkA2AEvt 3 "PUBLISH" (.malformed "hi"))).1
        (mkA2AEvt 3 "SUBSCRIBE" (.malformed "yo"))).1.a2aPayloads 3 =
      some ⟨strOpt (RawBody.malformed "hi").str, strOpt (RawBody.malformed "yo").str,
            strOpt (parseUserRequest (.malformed "hi")),
            strOpt (parseAgentResponse (.malformed "yo"))⟩ ∧
    lookupA2A (processEvent 1 (processEvent 0 emptyState
        (mkA2AEvt 3 "SUBSCRIBE" (.malformed "yo"))).1
        (mkA2AEvt 3 "PUBLISH" (.malformed "hi"))).1.a2aPayloads 3 =
      some ⟨strOpt (RawBody.malformed "hi").str, strOpt (RawBody.malformed "yo").str,
            strOpt (parseUserRequest (.malformed "hi")),
            strOpt (parseAgentResponse (.malformed "yo"))⟩ ∧
    lookupA2A (processEvent 0 emptyState
        (mkA2AEvt 3 "PUBLISH" (.malformed "hi"))).1.a2aPayloads 3 =
      some ⟨strOpt (RawBody.malformed "hi").str, none,
            strOpt (parseUserRequest (.malformed "hi")), none⟩ ∧
    lookupA2A (processEvent 0 emptyState
        (mkA2AEvt 3 "SUBSCRIBE" (.malformed "yo"))).1.a2aPayloads 3 =
      some ⟨none, strOpt (RawBody.malformed "yo").str,
            none, strOpt (parseAgentResponse (.malformed "yo"))⟩ :=
  a2a_order_tolerance 0 1 emptyState 3 (.malformed "hi") (.malformed "yo")
    rfl (by decide) (by decide) (by decide)

set_option maxRecDepth 100000 in
/-- C8 counterexample: in the concrete state `stC8` the correlation table
holds the causal identifier 0 of a buffered terminal record awaiting
flush; recording one fresh half pushes the table over its bound and the
entry keyed 0 is evicted anyway, while the terminal record is still
buffered. -/
theorem a2a_eviction_cex :
    (lookupA2A stC8.a2aPayloads 0).isSome = true ∧
    (stC8.pendingEvents.find? (fun e => e.isAgent && e.requestId == some 0)).isSome = true ∧
    lookupA2A (processEvent 0 stC8 evtC8).1.a2aPayloads 0 = none ∧
    (processEvent 0 stC8 evtC8).1.pendingEvents = stC8.pendingEvents :=
  ⟨by rfl, by rfl, by rfl, by rfl⟩

/-- C8 (amended): when recording an async half pushes the table past 500
entries the oldest 250 entries are evicted unconditionally — the resulting
table is independent of whatever is buffered (there is no pending-consumer
protection), so an entry referenced by a buffered terminal record can be
evicted. -/
theorem a2a_eviction_unconditional (now : Nat) (S : ServerState) (evt : Evt) (rid : Nat)
    (hconn : evt.connectorId = "agent-to-agent")
    (hpay : evt.messagePayload.str ≠ "")
    (hrid : evt.requestId = some rid) :
    (∀ pend1 pend2 : List Entry,
      (processEvent now { S with pendingEvents := pend1 } evt).1.a2aPayloads =
      (processEvent now { S with pendingEvents := pend2 } evt).1.a2aPayloads) ∧
    (processEvent now S evt).1.a2aPayloads =
      (if 500 < (mapSet S.a2aPayloads rid
            (a2aUpdate ((lookupA2A S.a2aPayloads rid).getD emptyA2A)
              evt.operation evt.messagePayload)).length
       then (mapSet S.a2aPayloads rid
            (a2aUpdate ((lookupA2A S.a2aPayloads rid).getD emptyA2A)
              evt.operation evt.messagePayload)).drop 250
       else mapSet S.a2aPayloads rid
            (a2aUpdate ((lookupA2A S.a2aPayloads rid).getD emptyA2A)
              evt.operation evt.messagePayload)) := by
  constructor
  · intro pend1 pend2
    unfold processEvent
    rw [if_pos ⟨hconn, hpay⟩, if_pos ⟨hconn, hpay⟩]
    rw [hrid]
  · unfold processEvent
    rw [if_pos ⟨hconn, hpay⟩, hrid]

/-- C8 amended-claim witness: the eviction applied to `stC8` gives the
same table whether or not the terminal record is buffered, and equals the
unconditional oldest-250 eviction of the updated table. -/
theorem a2a_eviction_unconditional_witness :
    (processEvent 0 { stC8 with pendingEvents := [] } evtC8).1.a2aPayloads =
      (processEvent 0 { stC8 with pendingEvents := [agentPendingC8] } evtC8).1.a2aPayloads ∧
    (processEvent 0 stC8 evtC8).1.a2aPayloads =
      (if 500 < (mapSet stC8.a2aPayloads 1000
            (a2aUpdate ((lookupA2A stC8.a2aPayloads 1000).getD emptyA2A)
              evtC8.operation evtC8.messagePayload)).length
       then (mapSet stC8.a2aPayloads 1000
            (a2aUpdate ((lookupA2A stC8.a2aPayloads 1000).getD emptyA2A)
              evtC8.operation evtC8.messagePayload)).drop 250
       else mapSet stC8.a2aPayloads 1000
            (a2aUpdate ((lookupA2A stC8.a2aPayloads 1000).getD emptyA2A)
              evtC8.operation evtC8.messagePayload)) :=
  ⟨(a2a_eviction_unconditional 0 stC8 evtC8 1000 rfl (by decide) rfl).1 [] [agentPendingC8],
   (a2a_eviction_unconditional 0 stC8 evtC8 1000 rfl (by decide) rfl).2⟩

/-- C9: ingestion and classification are total — an unparsable line is
dropped with no state change and nothing is sent to subscribers, and
absent or malformed (unparsable) bodies never make a classifier fail: the
classifiers still return their full step lists, degrading the summary
texts to the generic fallbacks ("Response received", "OK",
"Agent replied"). -/
theorem malformed_input_safe (evt : Evt) (d : DCtx)
    (h1 : tryJSON d.reqB = none) (h2 : tryJSON d.resB = none)
    (h3 : tryJSON d.eRes = none) (h4 : tryJSON d.edReq = none)
    (hs : d.s < 400) :
    (∀ (n : Nat) (S : ServerState), processLine n S none = (S, [])) ∧
    (fLLM evt d).length = 5 ∧
    stepText ((fLLM evt d)[3]?) = some "Response received" ∧
    (fMCP evt d "Keyless").length = 5 ∧
    stepText ((fMCP evt d "Keyless")[4]?) = some "OK" ∧
    (fAgent evt d).length = 3 ∧
    stepText ((fAgent evt d)[2]?) = some "Agent replied" := by
  have hns : ¬400 ≤ d.s := by omega
  have hor1 : tryJSON (orB d.resB d.eRes) = none := by
    unfold orB; split <;> assumption
  have hor2 : tryJSON (orB d.eRes d.resB) = none := by
    unfold orB; split <;> assumption
  refine ⟨fun n S => rfl, ?_, ?_, ?_, ?_, ?_, ?_⟩
  · simp [fLLM, parseLLMReq, parseLLMRes, h1, hor1, hns]
  · simp [fLLM, parseLLMReq, parseLLMRes, h1, hor1, hns, stepText]
  · simp [fMCP, parseMCP, parseMCPRes, h1, hor2, hns]
  · simp [fMCP, parseMCP, parseMCPRes, h1, hor2, hns, hs, stepText]
  · simp [fAgent, parseUserRequest, parseAgentResponse, h1, h2, h3, h4, orS]
  · simp [fAgent, parseUserRequest, parseAgentResponse, h1, h2, h3, h4, orS, hs, stepText]

/-- C9 witness: a concrete record whose four bodies are present but
unparsable; every classifier degrades to the generic summaries and the
unparsable line is a no-op. -/
theorem malformed_input_safe_witness :
    processLine 0 emptyState none = (emptyState, []) ∧
    (fLLM evtC9 (dOf evtC9)).length = 5 ∧
    stepText ((fLLM evtC9 (dOf evtC9))[3]?) = some "Response received" ∧
    (fMCP evtC9 (dOf evtC9) "Keyless").length = 5 ∧
    stepText ((fMCP evtC9 (dOf evtC9) "Keyless")[4]?) = some "OK" ∧
    (fAgent evtC9 (dOf evtC9)).length = 3 ∧
    stepText ((fAgent evtC9 (dOf evtC9))[2]?) = some "Agent replied" :=
  ⟨(malformed_input_safe evtC9 (dOf evtC9) rfl rfl rfl rfl (by decide)).1 0 emptyState,
   (malformed_input_safe evtC9 (dOf evtC9) rfl rfl rfl rfl (by decide)).2⟩

theorem mkAgentEntry_isAgent (S : ServerState) (evt : Evt) (base : Entry) :
    (mkAgentEntry S evt base).isAgent = base.isAgent := by
  unfold mkAgentEntry mergeA2A
  cases evt.requestId <;> rfl

theorem ingest_agent (now : Nat) (S : ServerState) (evt : Evt) (steps : List Step)
    (hcls : classify evt = some steps) (hne : steps.isEmpty = false)
    (hA : sStarts evt.uri "/bookings-agent" = true) :
    ingest now S evt =
      ({ S with pendingEvents := S.pendingEvents ++ [mkAgentEntry S evt (mkBase evt steps)],
                bufferTimeout := some (S.bufferTimeout.getD (now + 60000)),
                flushTimer := some (now + 500) },
       [OutMsg.progress (S.pendingEvents ++ [mkAgentEntry S evt (mkBase evt steps)]).length]) := by
  have hbA : (mkBase evt steps).isAgent = true := hA
  unfold ingest
  rw [hcls]
  simp only [hne, Bool.false_eq_true, if_false, hbA, if_true, ite_true, ite_false]
  cases S.bufferTimeout <;> rfl

theorem classify_agent (evt : Evt)
    (hjvm : evt.jvm = false) (hosp : evt.osp = false)
    (huri : sStarts evt.uri "/bookings-agent" = true)
    (huri' : ¬evt.uri = "")
    (hrid : evt.requestId ≠ none)
    (hnoise : isNoise evt = false) :
    classify evt = some (fAgent evt (dOf evt)) := by
  unfold classify
  rw [if_neg (by simp [hjvm, hosp]), if_neg (by simp [huri', hrid]),
      if_neg (by simp [hnoise]), if_pos huri]

theorem processEvent_fresh (now : Nat) (S : ServerState) (evt : Evt) (rid : Nat)
    (hconn : evt.connectorId ≠ "agent-to-agent")
    (huri' : ¬evt.uri = "")
    (hrid : evt.requestId = some rid)
    (hnew : rid ∉ S.seen) :
    processEvent now S evt =
      ingest now { S with seen := if 5000 < (S.seen ++ [rid]).length
                                  then (S.seen ++ [rid]).drop 2500
                                  else S.seen ++ [rid] } evt := by
  unfold processEvent
  rw [if_neg (fun h => hconn h.1), if_neg (fun h => huri' h.1)]
  simp only [hrid]
  rw [if_neg hnew]

/-- C10: when a second terminal record arrives for the in-flight buffer
before the pending flush fires, it is appended to the same buffer and
re-arms (supersedes) the grace timer; the flushed output synthesizes its
boundary steps from the first terminal record in arrival order, and the
second terminal record's classified steps are omitted from the output
entirely (the inner steps are exactly those of the original non-terminal
records). -/
theorem second_terminal_superseded (now now' : Nat) (S : ServerState) (evt : Evt)
    (rid : Nat) (e1 : Entry)
    (hfind : S.pendingEvents.find? (fun e => e.isAgent) = some e1)
    (hconn : evt.connectorId ≠ "agent-to-agent")
    (hjvm : evt.jvm = false) (hosp : evt.osp = false)
    (huri : sStarts evt.uri "/bookings-agent" = true)
    (hrid : evt.requestId = some rid)
    (hnew : rid ∉ S.seen)
    (hnoise : isNoise evt = false) :
    ∃ e2 : Entry,
      (processEvent now S evt).1.pendingEvents = S.pendingEvents ++ [e2] ∧
      e2.isAgent = true ∧
      (processEvent now S evt).1.flushTimer = some (now + 500) ∧
      (flushBuffer now' (processEvent now S evt).1).2 =
        [OutMsg.liveSteps "Complete Flow" (tsOr e1 now')
          (leadingSteps (enrichFromTable (processEvent now S evt).1.a2aPayloads e1).1 ++
           stepsJoin (sortByTs (S.pendingEvents.filter (fun e => !e.isAgent))) ++
           trailingSteps (enrichFromTable (processEvent now S evt).1.a2aPayloads e1).1)] := by
  have huri' : ¬evt.uri = "" := by
    intro h
    rw [h] at huri
    exact absurd huri (by decide)
  have hcls : classify evt = some (fAgent evt (dOf evt)) :=
    classify_agent evt hjvm hosp huri huri' (by rw [hrid]; exact Option.some_ne_none rid) hnoise
  have hne : (fAgent evt (dOf evt)).isEmpty = false := rfl
  have hstep := processEvent_fresh now S evt rid hconn huri' hrid hnew
  set S' : ServerState :=
    { S with seen := if 5000 < (S.seen ++ [rid]).length
                     then (S.seen ++ [rid]).drop 2500
                     else S.seen ++ [rid] } with hS'
  have hIng := ingest_agent now S' evt (fAgent evt (dOf evt)) hcls hne huri
  set e2 : Entry := mkAgentEntry S' evt (mkBase evt (fAgent evt (dOf evt))) with he2
  have he2A : e2.isAgent = true := by
    rw [he2, mkAgentEntry_isAgent]
    exact huri
  have hstate : (processEvent now S evt).1 =
      { S with seen := S'.seen,
               pendingEvents := S.pendingEvents ++ [e2],
               bufferTimeout := some (S.bufferTimeout.getD (now + 60000)),
               flushTimer := some (now + 500) } := by
    rw [hstep, hIng]
  refine ⟨e2, by rw [hstate], he2A, by rw [hstate], ?_⟩
  rw [hstate]
  unfold flushBuffer
  have hfind2 : (S.pendingEvents ++ [e2]).find? (fun e => e.isAgent) = some e1 := by
    rw [List.find?_append, hfind]
    rfl
  have hflt : (S.pendingEvents ++ [e2]).filter (fun e => !e.isAgent) =
      S.pendingEvents.filter (fun e => !e.isAgent) := by
    rw [List.filter_append]
    simp [he2A]
  have hemp : (S.pendingEvents ++ [e2]).isEmpty = false := by
    simp
  simp only [hemp, Bool.false_eq_true, if_false, hfind2, hflt]

/-- C10 witness: after the terminal record `evtA10` is buffered, the
second terminal record `evtB10` is appended to the same buffer, re-arms
the grace timer to the new deadline, and the flushed output takes its
boundary steps from the first terminal record while the second terminal
record's classified steps appear nowhere in the output. -/
theorem second_terminal_superseded_witness :
    (processEvent 5 stW10 evtB10).1.flushTimer = some (5 + 500) ∧
    (processEvent 5 stW10 evtB10).1.pendingEvents.length = stW10.pendingEvents.length + 1 ∧
    (flushBuffer 7 (processEvent 5 stW10 evtB10).1).2 =
      [OutMsg.liveSteps "Complete Flow" (tsOr e1W10 7)
        (leadingSteps (enrichFromTable (processEvent 5 stW10 evtB10).1.a2aPayloads e1W10).1 ++
         stepsJoin (sortByTs (stW10.pendingEvents.filter (fun e => !e.isAgent))) ++
         trailingSteps (enrichFromTable (processEvent 5 stW10 evtB10).1.a2aPayloads e1W10).1)] := by
  obtain ⟨e2, h1, h2, h3, h4⟩ :=
    second_terminal_superseded 5 7 stW10 evtB10 22 e1W10 (by rfl) (by decide) rfl rfl
      (by rfl) rfl (by decide) (by rfl)
  refine ⟨h3, ?_, h4⟩
  rw [h1]
  simp
